import Mathlib

/-!
Shallow embedding of validator.py from qontract-validator.

The embedding models the JSON data model, the Python dictionary access
semantics (KeyError vs TypeError vs AttributeError), the four validators
(validate_schema, validate_file, validate_ref, validate_resource_paths),
the two tree walkers (find_refs, find_resource_paths), the schema pointer
navigator (get_schema_info_from_pointer) and the orchestrator (main).

External collaborators are parameters, as the specification prescribes:
the jsonschema library is a validation oracle (structure JV), the network
fetch of meta-schemas is a function String to Option Json, and the
resource filesystem plus YAML/JSON parsing is a function returning a
LoadResult.  Exceptions that escape a function are modelled with Except:
Except.error means the Python code raises past its boundary.
Dictionary iteration in main is modelled as iteration over a snapshot of
the items, while lookups see the live, updated bundle.
-/

/-- A JSON-compatible tree, as produced by json.load: objects keep key
insertion order, keys are strings. -/
inductive Json : Type where
  | null : Json
  | bool (b : Bool) : Json
  | num (n : Int) : Json
  | str (s : String) : Json
  | arr (xs : List Json) : Json
  | obj (kvs : List (String × Json)) : Json

/-- Exceptions that can escape a validator, or abort the run. -/
inductive Exn : Type where
  | keyError (k : String) : Exn
  | typeError : Exn
  | attributeError : Exn
  | missingSchemaFile (path : String) : Exn
  | fetchFailure (url : String) : Exn
  | refResolutionErr : Exn
  | schemaErr : Exn
  deriving DecidableEq

/-- First-match lookup in an association list, modelling Python dict
indexing on string keys. -/
def lookupKV : List (String × Json) → String → Option Json
  | [], _ => none
  | (k, v) :: rest, key => if k = key then some v else lookupKV rest key

/-- Python membership test key in dict. -/
def hasKeyKV (kvs : List (String × Json)) (k : String) : Bool :=
  (lookupKV kvs k).isSome

/-- Python subscript obj[k] with a string key: a dict yields the value or
raises KeyError; any non-dict (list, string, number, bool, None) raises
TypeError. -/
def pyGetItem (j : Json) (k : String) : Except Exn Json :=
  match j with
  | .obj kvs =>
    match lookupKV kvs k with
    | some v => .ok v
    | none => .error (.keyError k)
  | _ => .error (.typeError)

/-- Python subscript d[key] on a string-keyed dict where key is an
arbitrary JSON value: strings look up (KeyError when absent); hashable
non-strings (numbers, bools, None) are never present so raise KeyError;
unhashable keys (lists, dicts) raise TypeError. -/
def pyDictGet (d : List (String × Json)) (key : Json) : Except Exn Json :=
  match key with
  | .str s =>
    match lookupKV d s with
    | some v => .ok v
    | none => .error (.keyError s)
  | .arr _ => .error (.typeError)
  | .obj _ => .error (.typeError)
  | .null => .error (.keyError "None")
  | .bool _ => .error (.keyError "bool")
  | .num _ => .error (.keyError "num")

/-- Python test key in dict for an arbitrary JSON key: strings test
membership, hashable non-strings give False, unhashable keys raise
TypeError. -/
def pyInDict (key : Json) (d : List (String × Json)) : Except Exn Bool :=
  match key with
  | .str s => .ok (lookupKV d s).isSome
  | .arr _ => .error (.typeError)
  | .obj _ => .error (.typeError)
  | _ => .ok false

/-- Python dict.get(k): None for a missing key, and a stored JSON null is
also returned as None, so both collapse to none; calling .get on a
non-dict raises AttributeError. -/
def pyGet (j : Json) (k : String) : Except Exn (Option Json) :=
  match j with
  | .obj kvs =>
    match lookupKV kvs k with
    | some .null => .ok none
    | some v => .ok (some v)
    | none => .ok none
  | _ => .error (.attributeError)

/-- Python equality between a string and a JSON value: values of other
types compare unequal without raising. -/
def pyStrEq (s : String) (j : Json) : Bool :=
  match j with
  | .str t => s == t
  | _ => false

/-- Prefix test on character lists. -/
def leadsChars : List Char → List Char → Bool
  | [], _ => true
  | _ :: _, [] => false
  | a :: as, b :: bs => a == b && leadsChars as bs

/-- Contiguous substring test on character lists, modelling the Python
substring form of the in operator. -/
def containsSub (needle : List Char) : List Char → Bool
  | [] => needle.isEmpty
  | c :: rest => leadsChars needle (c :: rest) || containsSub needle rest

/-- Python str.startswith. -/
def pyStartsWith (s p : String) : Bool := leadsChars p.data s.data

/-- Python test k in x for a string k: dicts test keys, lists test
element equality, strings test substring, other types raise TypeError. -/
def pyContainsE (j : Json) (k : String) : Except Exn Bool :=
  match j with
  | .obj kvs => .ok (hasKeyKV kvs k)
  | .arr xs => .ok (xs.any (fun e => pyStrEq k e))
  | .str s => .ok (containsSub k.data s.data)
  | _ => .error (.typeError)

/-- Sequential, short-circuiting evaluation of
all(k in j for k in ks), as the generator expression in
validate_resource_paths evaluates it. -/
def allKeysIn (j : Json) : List String → Except Exn Bool
  | [] => .ok true
  | k :: ks =>
    match pyContainsE j k with
    | .error e => .error e
    | .ok false => .ok false
    | .ok true => allKeysIn j ks

/-- Python str.split(sep) for a one-character separator: keeps empty
chunks and returns a single chunk for the empty string. -/
def splitChars (sep : Char) : List Char → List (List Char)
  | [] => [[]]
  | c :: rest =>
    if c = sep then [] :: splitChars sep rest
    else
      match splitChars sep rest with
      | [] => [[c]]
      | h :: t => (c :: h) :: t

/-- Python ptr.split("/") on the embedded strings. -/
def pySplit (s : String) (sep : Char) : List String :=
  (splitChars sep s.data).map (fun cs => String.mk cs)

/-- Python str.isdigit restricted to ASCII: nonempty and all digits. -/
def pyIsDigit (s : String) : Bool :=
  s.length > 0 && s.data.all Char.isDigit

/-- The extension component of os.path.splitext: the suffix from the last
dot of the basename, where leading dots of the basename do not begin an
extension. -/
def splitextExt (p : String) : String :=
  let b := (splitChars '/' p.data).getLastD []
  let r := b.dropWhile (fun c => c = '.')
  if r.contains '.' then "." ++ String.mk ((splitChars '.' r).getLastD [])
  else ""

/-- The kind tags of ValidatedFileKind. -/
inductive Kind : Type where
  | SCHEMA : Kind
  | FILE : Kind
  | REF : Kind
  | RESOURCE_PATH : Kind
  deriving DecidableEq

/-- The three result classes ValidationOK, ValidationRefOK and
ValidationError; an error carries its stable reason code and the extra
keyword fields (ref, schema_url, meta_schema_url, res). -/
inductive Outcome : Type where
  | ok (kind : Kind) (filename : String) (schemaUrl : Json) : Outcome
  | refOk (kind : Kind) (filename : String) (ref : Json) (schemaUrl : Json) : Outcome
  | error (kind : Kind) (filename : String) (reason : String)
      (extra : List (String × Json)) : Outcome

/-- An outcome whose dumped status field is ERROR. -/
def Outcome.isErr : Outcome → Bool
  | .error _ _ _ _ => true
  | _ => false

/-- Results the delegated jsonschema validation can have: success or one
of the exception classes the validators catch or propagate. -/
inductive VOut : Type where
  | ok : VOut
  | validationError : VOut
  | schemaError : VOut
  | refResolutionError : VOut
  | typeError : VOut
  deriving DecidableEq

/-- The delegated jsonschema capability: check_schema as a predicate, and
validate(instance) against a schema under a resolver backed by a bundle
(the bundle is empty when no resolver is passed). -/
structure JV : Type where
  checkSchemaOk : Json → Bool
  validate : List (String × Json) → Json → Json → VOut

/-- Outcome of opening and parsing a resource file: I/O failure, YAML or
JSON parse failure, or the parsed tree. -/
inductive LoadResult : Type where
  | ioError : LoadResult
  | yamlError : LoadResult
  | jsonError : LoadResult
  | parsed (j : Json) : LoadResult

/-- The schemas bundle and the data bundle: string-keyed dicts in
insertion order. -/
def SB : Type := List (String × Json)

/-- fetch_schema: http-prefixed identifiers go to the network collaborator
(raising on a failed fetch), any other string raises MissingSchemaFile,
and a non-string has no startswith attribute. -/
def fetchSchema (fetch : String → Option Json) (url : Json) : Except Exn Json :=
  match url with
  | .str s =>
    if pyStartsWith s "http" then
      match fetch s with
      | some j => .ok j
      | none => .error (.fetchFailure s)
    else .error (.missingSchemaFile s)
  | _ => .error (.attributeError)

/-- Insertion of a fetched meta-schema under its (string) identifier. -/
def insertKV (d : SB) (key : Json) (v : Json) : SB :=
  match key with
  | .str s => List.append d [(s, v)]
  | _ => d

/-- validate_schema: returns the outcome together with the possibly
extended schemas bundle (the meta-schema cache fill is the only bundle
mutation). -/
def validateSchema (jv : JV) (fetch : String → Option Json) (schemas : SB)
    (filename : String) (schemaData : Json) : Except Exn (Outcome × SB) :=
  match pyGetItem schemaData "$schema" with
  | .error (.keyError _) => .ok (.error .SCHEMA filename "MISSING_SCHEMA_URL" [], schemas)
  | .error e => .error e
  | .ok metaUrl =>
  match pyInDict metaUrl schemas with
  | .error e => .error e
  | .ok b =>
  match (if b then (pyDictGet schemas metaUrl).map (fun m => (m, schemas))
         else (fetchSchema fetch metaUrl).map (fun m => (m, insertKV schemas metaUrl m))) with
  | .error e => .error e
  | .ok (metaSchema, schemas') =>
  if jv.checkSchemaOk schemaData then
    match jv.validate schemas' metaSchema schemaData with
    | .ok => .ok (.ok .SCHEMA filename metaUrl, schemas')
    | .validationError =>
      .ok (.error .SCHEMA filename "VALIDATION_ERROR" [("meta_schema_url", metaUrl)], schemas')
    | .schemaError =>
      .ok (.error .SCHEMA filename "SCHEMA_ERROR" [("meta_schema_url", metaUrl)], schemas')
    | .refResolutionError =>
      .ok (.error .SCHEMA filename "SCHEMA_ERROR" [("meta_schema_url", metaUrl)], schemas')
    | .typeError => .error (.typeError)
  else .ok (.error .SCHEMA filename "SCHEMA_ERROR" [("meta_schema_url", metaUrl)], schemas')

/-- validate_file: reads the declared schema identifier, normalizes it by
prepending a slash unless it starts with http or a slash, looks the
schema up in the bundle and delegates instance validation.  Only
ValidationError, SchemaError and TypeError are caught. -/
def validateFile (jv : JV) (schemas : SB) (filename : String) (data : Json) :
    Except Exn Outcome :=
  match pyGetItem data "$schema" with
  | .error (.keyError _) => .ok (.error .FILE filename "MISSING_SCHEMA_URL" [])
  | .error e => .error e
  | .ok su =>
  match su with
  | .str u0 =>
    let u := if !pyStartsWith u0 "http" && !pyStartsWith u0 "/" then "/" ++ u0 else u0
    match lookupKV schemas u with
    | none => .ok (.error .FILE filename "SCHEMA_NOT_FOUND" [("schema_url", .str u)])
    | some schema =>
      match jv.validate schemas schema data with
      | .ok => .ok (.ok .FILE filename (.str u))
      | .validationError => .ok (.error .FILE filename "VALIDATION_ERROR" [("schema_url", .str u)])
      | .schemaError => .ok (.error .FILE filename "SCHEMA_ERROR" [("schema_url", .str u)])
      | .typeError => .ok (.error .FILE filename "SCHEMA_TYPE_ERROR" [("schema_url", .str u)])
      | .refResolutionError => .error (.refResolutionErr)
  | _ => .error (.attributeError)

/-- The loop body of get_schema_info_from_pointer: a digit segment
descends into items, any other segment into properties[segment]. -/
def navChunks : Json → List String → Except Exn Json
  | info, [] => .ok info
  | info, c :: rest =>
    match (if pyIsDigit c then pyGetItem info "items"
           else match pyGetItem info "properties" with
                | .ok props => pyGetItem props c
                | .error e => .error e) with
    | .ok next => navChunks next rest
    | .error e => .error e

/-- get_schema_info_from_pointer: split the pointer on slashes, drop the
first chunk, walk the remaining chunks. -/
def getSchemaInfoFromPointer (schema : Json) (ptr : String) : Except Exn Json :=
  navChunks schema ((pySplit ptr '/').drop 1)

/-- validate_ref: resolve the target document, then the declared schema of
the containing document, then the schema node at the pointer, then apply
the optional schemaRef cross-check. -/
def validateRef (jv : JV) (schemas : SB) (dataBundle : SB) (filename : String)
    (data : Json) (ptr : String) (ref : Json) : Except Exn Outcome :=
  match pyGetItem ref "$ref" with
  | .error e => .error e
  | .ok refName =>
  match pyDictGet dataBundle refName with
  | .error (.keyError _) => .ok (.error .REF filename "FILE_NOT_FOUND" [("ref", refName)])
  | .error e => .error e
  | .ok refData =>
  match pyGetItem data "$schema" with
  | .error (.keyError _) => .ok (.error .REF filename "SCHEMA_NOT_FOUND" [("ref", refName)])
  | .error e => .error e
  | .ok dataSchema =>
  match pyDictGet schemas dataSchema with
  | .error (.keyError _) => .ok (.error .REF filename "SCHEMA_NOT_FOUND" [("ref", refName)])
  | .error e => .error e
  | .ok schema =>
  match getSchemaInfoFromPointer schema ptr with
  | .error (.keyError _) =>
    .ok (.error .REF filename "SCHEMA_DEFINITION_NOT_FOUND" [("ref", refName)])
  | .error e => .error e
  | .ok schemaInfo =>
  match pyGet schemaInfo "$schemaRef" with
  | .error e => .error e
  | .ok none => .ok (.refOk .REF filename refName dataSchema)
  | .ok (some expected) =>
  match expected with
  | .str es =>
    match pyGetItem refData "$schema" with
    | .error e => .error e
    | .ok rs =>
      if pyStrEq es rs then .ok (.refOk .REF filename refName dataSchema)
      else .ok (.error .REF filename "INCORRECT_SCHEMA" [("ref", refName)])
  | _ =>
    match jv.validate [] expected refData with
    | .ok => .ok (.refOk .REF filename refName dataSchema)
    | .validationError => .ok (.error .REF filename "SCHEMA_REF_VALIDATION_ERROR" [])
    | .schemaError => .error (.schemaErr)
    | .refResolutionError => .error (.refResolutionErr)
    | .typeError => .error (.typeError)

/-- validate_resource_paths: extension check, delegated load and parse,
then the kubernetes structural checks; the success branch reads the
containing documents declared schema with a bare subscript. -/
def validateResourcePaths (fs : String → Bool → LoadResult) (schemas : SB)
    (dataBundle : SB) (filename : String) (data : Json) (ptr : String)
    (res : Json) : Except Exn Outcome :=
  match pyGetItem res "path" with
  | .error e => .error e
  | .ok pathJ =>
  match pathJ with
  | .str path =>
    let ext := splitextExt path
    let realPath := "resources" ++ path
    if !([".json", ".yml", ".yaml"].contains ext) then
      .ok (.error .RESOURCE_PATH filename "MISSING_EXTENSION" [("res", .str path)])
    else
    match fs realPath ([".yml", ".yaml"].contains ext) with
    | .ioError => .ok (.error .RESOURCE_PATH filename "FILE_NOT_FOUND" [("res", .str path)])
    | .yamlError => .ok (.error .RESOURCE_PATH filename "INVALID_YAML" [("res", .str path)])
    | .jsonError => .ok (.error .RESOURCE_PATH filename "INVALID_JSON" [("res", .str path)])
    | .parsed rd =>
    match allKeysIn rd ["apiVersion", "metadata", "kind"] with
    | .error e => .error e
    | .ok false => .ok (.error .RESOURCE_PATH filename "INVALID_OBJECT" [("res", .str path)])
    | .ok true =>
    let finish : Except Exn Outcome :=
      match pyGetItem data "$schema" with
      | .error e => .error e
      | .ok ds => .ok (.refOk .RESOURCE_PATH filename (.str path) ds)
    match pyGetItem rd "kind" with
    | .error e => .error e
    | .ok kv =>
      if pyStrEq "ConfigMap" kv || pyStrEq "Secret" kv then
        match pyContainsE rd "data" with
        | .error e => .error e
        | .ok false => .ok (.error .RESOURCE_PATH filename "INVALID_OBJECT" [("res", .str path)])
        | .ok true => finish
      else finish
  | _ => .error (.typeError)

mutual

/-- find_refs: record a dict containing the ref marker and do not descend
into it, otherwise walk children extending the pointer; the accumulator
list models the mutated Python list. -/
def findRefs : Json → String → List (String × Json) → List (String × Json)
  | .obj kvs, ptr, refs =>
    if hasKeyKV kvs "$ref" then refs ++ [(ptr, .obj kvs)]
    else findRefsObj kvs ptr refs
  | .arr xs, ptr, refs => findRefsArr xs 0 ptr refs
  | _, _, refs => refs

/-- The dict branch of find_refs, iterating items in order. -/
def findRefsObj : List (String × Json) → String → List (String × Json) →
    List (String × Json)
  | [], _, refs => refs
  | (k, v) :: rest, ptr, refs =>
    findRefsObj rest ptr (findRefs v (ptr ++ "/" ++ k) refs)

/-- The list branch of find_refs, iterating with enumerate. -/
def findRefsArr : List Json → Nat → String → List (String × Json) →
    List (String × Json)
  | [], _, _, refs => refs
  | x :: rest, i, ptr, refs =>
    findRefsArr rest (i + 1) ptr (findRefs x (ptr ++ "/" ++ toString i) refs)

end

/-- The trigger of find_resource_paths: provider equal to the string
resource plus a path key. -/
def isResourceObj (kvs : List (String × Json)) : Bool :=
  (match lookupKV kvs "provider" with
   | some v => pyStrEq "resource" v
   | none => false) && hasKeyKV kvs "path"

mutual

/-- find_resource_paths: same traversal as find_refs with the resource
trigger. -/
def findResourcePaths : Json → String → List (String × Json) → List (String × Json)
  | .obj kvs, ptr, paths =>
    if isResourceObj kvs then paths ++ [(ptr, .obj kvs)]
    else findResourcePathsObj kvs ptr paths
  | .arr xs, ptr, paths => findResourcePathsArr xs 0 ptr paths
  | _, _, paths => paths

/-- The dict branch of find_resource_paths. -/
def findResourcePathsObj : List (String × Json) → String → List (String × Json) →
    List (String × Json)
  | [], _, paths => paths
  | (k, v) :: rest, ptr, paths =>
    findResourcePathsObj rest ptr (findResourcePaths v (ptr ++ "/" ++ k) paths)

/-- The list branch of find_resource_paths. -/
def findResourcePathsArr : List Json → Nat → String → List (String × Json) →
    List (String × Json)
  | [], _, _, paths => paths
  | x :: rest, i, ptr, paths =>
    findResourcePathsArr rest (i + 1) ptr (findResourcePaths x (ptr ++ "/" ++ toString i) paths)

end

/-- The schema loop of main: iterate a snapshot of the bundle items while
lookups and cache fills act on the live bundle, which is threaded. -/
def runSchemas (jv : JV) (fetch : String → Option Json) :
    SB → List (String × Json) → Except Exn (List Outcome × SB)
  | schemas, [] => .ok ([], schemas)
  | schemas, (fn, sd) :: rest =>
    match validateSchema jv fetch schemas fn sd with
    | .error e => .error e
    | .ok (o, schemas') =>
      match runSchemas jv fetch schemas' rest with
      | .error e => .error e
      | .ok (os, schemas'') => .ok (o :: os, schemas'')

/-- A list comprehension over bundle items where the body can raise. -/
def mapOutcomes (f : String → Json → Except Exn Outcome) :
    List (String × Json) → Except Exn (List Outcome)
  | [] => .ok []
  | (fn, d) :: rest =>
    match f fn d with
    | .error e => .error e
    | .ok o =>
      match mapOutcomes f rest with
      | .error e => .error e
      | .ok os => .ok (o :: os)

/-- The inner loop of the ref comprehensions: one discovered pair after
the other. -/
def mapPairs (g : String → Json → String → Json → Except Exn Outcome)
    (fn : String) (d : Json) : List (String × Json) → Except Exn (List Outcome)
  | [] => .ok []
  | (ptr, r) :: rest =>
    match g fn d ptr r with
    | .error e => .error e
    | .ok o =>
      match mapPairs g fn d rest with
      | .error e => .error e
      | .ok os => .ok (o :: os)

/-- The nested comprehension over bundle items and their discovered
pairs. -/
def mapDiscovered (g : String → Json → String → Json → Except Exn Outcome)
    (find : Json → List (String × Json)) :
    List (String × Json) → Except Exn (List Outcome)
  | [] => .ok []
  | (fn, d) :: rest =>
    match mapPairs g fn d (find d) with
    | .error e => .error e
    | .ok os =>
      match mapDiscovered g find rest with
      | .error e => .error e
      | .ok os' => .ok (os ++ os')

/-- The orchestrator main after the envelope is loaded: the four
validation passes in order, concatenation of the outcome groups, the
error filter, and the exit code. -/
def runMain (jv : JV) (fetch : String → Option Json) (fs : String → Bool → LoadResult)
    (schemas dataBundle : SB) : Except Exn (List Outcome × Nat) :=
  match runSchemas jv fetch schemas schemas with
  | .error e => .error e
  | .ok (resultsSchemas, schemas') =>
  match mapOutcomes (validateFile jv schemas') dataBundle with
  | .error e => .error e
  | .ok resultsFiles =>
  match mapDiscovered (fun fn d ptr r => validateRef jv schemas' dataBundle fn d ptr r)
      (fun d => findRefs d "" []) dataBundle with
  | .error e => .error e
  | .ok resultsRefs =>
  match mapDiscovered (fun fn d ptr r => validateResourcePaths fs schemas' dataBundle fn d ptr r)
      (fun d => findResourcePaths d "" []) dataBundle with
  | .error e => .error e
  | .ok resultsRes =>
  let results := resultsSchemas ++ resultsFiles ++ resultsRefs ++ resultsRes
  let errors := results.filter Outcome.isErr
  .ok (results, if errors.length > 0 then 1 else 0)

/-- Rendering of a segment list as the slash-delimited pointer the
walkers build. -/
def renderPtr : List String → String
  | [] => ""
  | s :: rest => "/" ++ s ++ renderPtr rest

/-- A sub-object at a segment path that contains the ref marker while no
object strictly above it on the path does: exactly the sites find_refs
must record, at their true locations. -/
inductive Site : Json → List String → Json → Prop where
  | here {kvs : List (String × Json)} :
      hasKeyKV kvs "$ref" = true → Site (.obj kvs) [] (.obj kvs)
  | inObj {kvs : List (String × Json)} {k : String} {v : Json} {segs : List String}
      {o : Json} :
      hasKeyKV kvs "$ref" = false → (k, v) ∈ kvs → Site v segs o →
      Site (.obj kvs) (k :: segs) o
  | inArr {xs : List Json} {i : Nat} {v : Json} {segs : List String} {o : Json} :
      xs[i]? = some v → Site v segs o → Site (.arr xs) (toString i :: segs) o

/-- A delegated validator that accepts everything: used to instantiate
witnesses. -/
def jvAll : JV := ⟨fun _ => true, fun _ _ _ => .ok⟩

/-- A network collaborator whose fetches all fail. -/
def noFetch : String → Option Json := fun _ => none

/-- A resource filesystem returning a fixed, structurally valid
kubernetes object. -/
def fsK8s : String → Bool → LoadResult := fun _ _ =>
  .parsed (.obj [("apiVersion", .str "v1"), ("metadata", .obj []), ("kind", .str "Deployment")])

theorem pyStrEq_true_iff (s : String) (j : Json) : pyStrEq s j = true ↔ j = .str s := by
  cases j <;> simp [pyStrEq]
  exact eq_comm

/-- Claim C1 (amended): validate_schema and validate_file applied to an
object document without the declared-schema key return an Error outcome
with reason MISSING_SCHEMA_URL regardless of other content; validate_ref
applied to such a containing document, once its target resolves, instead
returns an Error with reason SCHEMA_NOT_FOUND, because the missing key
raises inside the schema lookup step whose handler reports
SCHEMA_NOT_FOUND. -/
theorem claim1_missing_schema_url (jv : JV) (fetch : String → Option Json)
    (schemas dataBundle : SB) (fn : String) (kvs : List (String × Json))
    (h : lookupKV kvs "$schema" = none) :
    validateSchema jv fetch schemas fn (.obj kvs) =
      .ok (.error .SCHEMA fn "MISSING_SCHEMA_URL" [], schemas) ∧
    validateFile jv schemas fn (.obj kvs) =
      .ok (.error .FILE fn "MISSING_SCHEMA_URL" []) ∧
    (∀ (ptr : String) (ref refName refData : Json),
      pyGetItem ref "$ref" = .ok refName →
      pyDictGet dataBundle refName = .ok refData →
      validateRef jv schemas dataBundle fn (.obj kvs) ptr ref =
        .ok (.error .REF fn "SCHEMA_NOT_FOUND" [("ref", refName)])) := by
  have hx : pyGetItem (Json.obj kvs) "$schema" = .error (.keyError "$schema") := by
    simp [pyGetItem, h]
  refine ⟨?_, ?_, ?_⟩
  · simp [validateSchema, hx]
  · simp [validateFile, hx]
  · intro ptr ref refName refData h5 h6
    simp [validateRef, hx, h5, h6]

/-- Witness for C1: a concrete containing document without the
declared-schema key, with a resolvable target. -/
theorem claim1_missing_schema_url_witness :
    validateRef jvAll [] [("e", Json.null)] "f" (Json.obj [("a", Json.null)]) ""
      (Json.obj [("$ref", Json.str "e")]) =
      .ok (.error .REF "f" "SCHEMA_NOT_FOUND" [("ref", Json.str "e")]) :=
  (claim1_missing_schema_url jvAll noFetch [] [("e", Json.null)] "f" [("a", Json.null)]
    rfl).2.2 "" (Json.obj [("$ref", Json.str "e")]) (Json.str "e") Json.null rfl rfl

/-- Counterexample for C1 as stated: validate_ref on a document without
the declared-schema key yields reason SCHEMA_NOT_FOUND, not
MISSING_SCHEMA_URL. -/
theorem claim1_counterexample :
    validateRef jvAll [] [("e", Json.null)] "g" (Json.obj []) ""
      (Json.obj [("$ref", Json.str "e")]) =
      .ok (.error .REF "g" "SCHEMA_NOT_FOUND" [("ref", Json.str "e")]) ∧
    "SCHEMA_NOT_FOUND" ≠ "MISSING_SCHEMA_URL" := by
  exact ⟨rfl, by decide⟩

/-- Claim C3: the spec invariant says absence of the declared-schema key
is a validation failure, never a crash, but validate_resource_paths
reads the containing documents schema on its success path with a bare
subscript: on a containing document without the key and an otherwise
valid resource reference it raises KeyError past its boundary instead of
returning an outcome. -/
theorem claim3_resource_paths_crash :
    validateResourcePaths fsK8s [] [] "team.yml" (Json.obj [("a", Json.str "b")]) "/x"
      (Json.obj [("provider", Json.str "resource"), ("path", Json.str "/cfg.yaml")]) =
      .error (.keyError "$schema") := by
  rfl

/-- Claim C4 (amended): validate_ref checks in a fixed order with a
distinct reason per failure: an unresolvable target gives FILE_NOT_FOUND
carrying the ref value; then an unresolvable declared schema gives
SCHEMA_NOT_FOUND; then a missing-key failure while navigating the schema
by the pointer gives SCHEMA_DEFINITION_NOT_FOUND.  Only KeyError
navigation failures are converted: navigating into a non-object node
raises TypeError past the boundary. -/
theorem claim4_ref_error_order (jv : JV) (schemas dataBundle : SB) (fn : String)
    (data : Json) (ptr : String) (ref refName : Json)
    (h1 : pyGetItem ref "$ref" = .ok refName) :
    ((∃ k, pyDictGet dataBundle refName = .error (.keyError k)) →
      validateRef jv schemas dataBundle fn data ptr ref =
        .ok (.error .REF fn "FILE_NOT_FOUND" [("ref", refName)])) ∧
    (∀ refData dataSchema,
      pyDictGet dataBundle refName = .ok refData →
      pyGetItem data "$schema" = .ok dataSchema →
      (∃ k, pyDictGet schemas dataSchema = .error (.keyError k)) →
      validateRef jv schemas dataBundle fn data ptr ref =
        .ok (.error .REF fn "SCHEMA_NOT_FOUND" [("ref", refName)])) ∧
    (∀ refData dataSchema schema,
      pyDictGet dataBundle refName = .ok refData →
      pyGetItem data "$schema" = .ok dataSchema →
      pyDictGet schemas dataSchema = .ok schema →
      (∃ k, getSchemaInfoFromPointer schema ptr = .error (.keyError k)) →
      validateRef jv schemas dataBundle fn data ptr ref =
        .ok (.error .REF fn "SCHEMA_DEFINITION_NOT_FOUND" [("ref", refName)])) := by
  refine ⟨?_, ?_, ?_⟩
  · rintro ⟨k, hk⟩
    simp [validateRef, h1, hk]
  · rintro refData dataSchema h2 h3 ⟨k, hk⟩
    simp [validateRef, h1, h2, h3, hk]
  · rintro refData dataSchema schema h2 h3 h4 ⟨k, hk⟩
    simp [validateRef, h1, h2, h3, h4, hk]

/-- Witness for C4: a concrete ref whose target is absent from the data
bundle yields FILE_NOT_FOUND with the ref value. -/
theorem claim4_ref_error_order_witness :
    validateRef jvAll [] [] "f" (Json.obj []) "" (Json.obj [("$ref", Json.str "E")]) =
      .ok (.error .REF "f" "FILE_NOT_FOUND" [("ref", Json.str "E")]) :=
  (claim4_ref_error_order jvAll [] [] "f" (Json.obj []) "" (Json.obj [("$ref", Json.str "E")])
    (Json.str "E") rfl).1 ⟨"E", rfl⟩

/-- Counterexample for C4 as stated: a navigation failure that is not a
missing key (here the schema node for segment a is a string, so the
subscript raises TypeError) escapes validate_ref instead of yielding
SCHEMA_DEFINITION_NOT_FOUND. -/
theorem claim4_counterexample :
    validateRef jvAll [("s", Json.obj [("properties", Json.obj [("a", Json.str "leaf")])])]
      [("e", Json.obj [("$schema", Json.str "x")])] "f"
      (Json.obj [("$schema", Json.str "s")]) "/a/b" (Json.obj [("$ref", Json.str "e")]) =
      .error .typeError := by
  rfl

/-- Claim C9 (amended): with the declared meta-schema identifier absent
from the bundle, validate_schema raises MissingSchemaFile past its
boundary for a non-http identifier, and raises on a failed network fetch
for an http identifier; these abort the run.  But an unresolvable
meta-schema fetch is not the ONLY failure that aborts a run instead of
becoming a per-unit Error outcome: the third conjunct exhibits a
non-fetch failure escaping validate_ref (an uncaught KeyError when a
string schemaRef annotation meets a referenced document without a
declared schema). -/
theorem claim9_fetch_aborts (jv : JV) (fetch : String → Option Json) (schemas : SB)
    (fn : String) (kvs : List (String × Json)) (u : String)
    (h : lookupKV kvs "$schema" = some (.str u))
    (hn : lookupKV schemas u = none) :
    (pyStartsWith u "http" = false →
      validateSchema jv fetch schemas fn (.obj kvs) = .error (.missingSchemaFile u)) ∧
    (pyStartsWith u "http" = true → fetch u = none →
      validateSchema jv fetch schemas fn (.obj kvs) = .error (.fetchFailure u)) ∧
    validateRef jvAll
      [("p", Json.obj [("properties",
        Json.obj [("dep", Json.obj [("$schemaRef", Json.str "svc-1.yml")])])])]
      [("d1", Json.obj [("kind", Json.str "x")])] "top.yml"
      (Json.obj [("$schema", Json.str "p")]) "/dep" (Json.obj [("$ref", Json.str "d1")]) =
      .error (.keyError "$schema") := by
  have hx : pyGetItem (Json.obj kvs) "$schema" = .ok (.str u) := by
    simp [pyGetItem, h]
  refine ⟨?_, ?_, rfl⟩
  · intro hs
    simp [validateSchema, hx, pyInDict, hn, fetchSchema, hs, Except.map]
  · intro hs hf
    simp [validateSchema, hx, pyInDict, hn, fetchSchema, hs, hf, Except.map]

/-- Witness for C9: a concrete schema declaring a bundle-relative
meta-schema identifier that is not in the bundle. -/
theorem claim9_fetch_aborts_witness :
    validateSchema jvAll noFetch [] "s1" (Json.obj [("$schema", Json.str "common-1.json")]) =
      .error (.missingSchemaFile "common-1.json") :=
  (claim9_fetch_aborts jvAll noFetch [] "s1" [("$schema", Json.str "common-1.json")]
    "common-1.json" rfl rfl).1 rfl

/-- Counterexample for C9 as stated: not every non-fetch failure becomes
an Error outcome.  When the schema node carries a string schemaRef
annotation and the referenced document has no declared schema,
validate_ref raises KeyError past its boundary. -/
theorem claim9_counterexample :
    validateRef jvAll
      [("q", Json.obj [("properties",
        Json.obj [("owner", Json.obj [("$schemaRef", Json.str "user-1.yml")])])])]
      [("u1", Json.obj [("name", Json.str "n")])] "app.yml"
      (Json.obj [("$schema", Json.str "q")]) "/owner" (Json.obj [("$ref", Json.str "u1")]) =
      .error (.keyError "$schema") := by
  rfl

/-- Claim C2 (amended): once the target document, the declared schema and
the schema node at the pointer resolve, the schemaRef cross-check
behaves as claimed, with two provisos forced by the code.  An absent (or
null) annotation skips the check and yields RefOk.  A string annotation
yields RefOk exactly when the referenced documents declared schema
equals it, and INCORRECT_SCHEMA otherwise, provided the referenced
document exposes a declared schema at all; when it does not, the bare
subscript raises (see the counterexample).  A non-string annotation
yields RefOk exactly when the delegated validation of the referenced
document against it succeeds, and SCHEMA_REF_VALIDATION_ERROR when the
delegated validation reports a validation error. -/
theorem claim2_schema_ref_branches (jv : JV) (schemas dataBundle : SB) (fn : String)
    (data : Json) (ptr : String) (ref refName refData dataSchema schema : Json)
    (si : List (String × Json))
    (h1 : pyGetItem ref "$ref" = .ok refName)
    (h2 : pyDictGet dataBundle refName = .ok refData)
    (h3 : pyGetItem data "$schema" = .ok dataSchema)
    (h4 : pyDictGet schemas dataSchema = .ok schema)
    (h5 : getSchemaInfoFromPointer schema ptr = .ok (.obj si)) :
    (lookupKV si "$schemaRef" = none →
      validateRef jv schemas dataBundle fn data ptr ref =
        .ok (.refOk .REF fn refName dataSchema)) ∧
    (∀ es rs, lookupKV si "$schemaRef" = some (.str es) →
      pyGetItem refData "$schema" = .ok rs →
      ((validateRef jv schemas dataBundle fn data ptr ref =
          .ok (.refOk .REF fn refName dataSchema)) ↔ rs = .str es) ∧
      (rs ≠ .str es →
        validateRef jv schemas dataBundle fn data ptr ref =
          .ok (.error .REF fn "INCORRECT_SCHEMA" [("ref", refName)]))) ∧
    (∀ exp, lookupKV si "$schemaRef" = some exp → (∀ s, exp ≠ .str s) → exp ≠ .null →
      ((validateRef jv schemas dataBundle fn data ptr ref =
          .ok (.refOk .REF fn refName dataSchema)) ↔ jv.validate [] exp refData = .ok) ∧
      (jv.validate [] exp refData = .validationError →
        validateRef jv schemas dataBundle fn data ptr ref =
          .ok (.error .REF fn "SCHEMA_REF_VALIDATION_ERROR" []))) := by
  refine ⟨?_, ?_, ?_⟩
  · intro hnone
    have hg : pyGet (Json.obj si) "$schemaRef" = .ok none := by
      simp [pyGet, hnone]
    simp [validateRef, h1, h2, h3, h4, h5, hg]
  · intro es rs hsome hrs
    have hg : pyGet (Json.obj si) "$schemaRef" = .ok (some (.str es)) := by
      simp [pyGet, hsome]
    constructor
    · by_cases he : pyStrEq es rs
      · rw [pyStrEq_true_iff] at he
        simp [validateRef, h1, h2, h3, h4, h5, hg, hrs, he, pyStrEq]
      · have hne : rs ≠ Json.str es := by
          intro hh
          exact he ((pyStrEq_true_iff es rs).mpr hh)
        simp [validateRef, h1, h2, h3, h4, h5, hg, hrs, he, hne]
    · intro hne
      have he : pyStrEq es rs = false := by
        rcases Bool.eq_false_or_eq_true (pyStrEq es rs) with hb | hb
        · exact absurd ((pyStrEq_true_iff es rs).mp hb) hne
        · exact hb
      simp [validateRef, h1, h2, h3, h4, h5, hg, hrs, he]
  · intro exp hsome hnstr hnnull
    have hg : pyGet (Json.obj si) "$schemaRef" = .ok (some exp) := by
      cases exp <;> simp_all [pyGet]
    have hred : validateRef jv schemas dataBundle fn data ptr ref =
        (match jv.validate [] exp refData with
         | .ok => .ok (.refOk .REF fn refName dataSchema)
         | .validationError => .ok (.error .REF fn "SCHEMA_REF_VALIDATION_ERROR" [])
         | .schemaError => .error (.schemaErr)
         | .refResolutionError => .error (.refResolutionErr)
         | .typeError => .error (.typeError)) := by
      cases exp with
      | str s => exact absurd rfl (hnstr s)
      | null => exact absurd rfl hnnull
      | bool b => simp [validateRef, h1, h2, h3, h4, h5, hg]
      | num n => simp [validateRef, h1, h2, h3, h4, h5, hg]
      | arr xs => simp [validateRef, h1, h2, h3, h4, h5, hg]
      | obj kvs => simp [validateRef, h1, h2, h3, h4, h5, hg]
    constructor
    · rw [hred]
      cases jv.validate [] exp refData <;> simp
    · intro hv
      rw [hred, hv]

/-- Witness for C2: a concrete chain where the referenced documents
declared schema equals the string annotation, giving RefOk. -/
theorem claim2_schema_ref_branches_witness :
    validateRef jvAll
      [("s", Json.obj [("properties", Json.obj [("a", Json.obj [("$schemaRef", Json.str "t")])])])]
      [("e", Json.obj [("$schema", Json.str "t")])] "f"
      (Json.obj [("$schema", Json.str "s")]) "/a" (Json.obj [("$ref", Json.str "e")]) =
      .ok (.refOk .REF "f" (Json.str "e") (Json.str "s")) :=
  ((claim2_schema_ref_branches jvAll
      [("s", Json.obj [("properties", Json.obj [("a", Json.obj [("$schemaRef", Json.str "t")])])])]
      [("e", Json.obj [("$schema", Json.str "t")])] "f"
      (Json.obj [("$schema", Json.str "s")]) "/a" (Json.obj [("$ref", Json.str "e")])
      (Json.str "e") (Json.obj [("$schema", Json.str "t")]) (Json.str "s")
      (Json.obj [("properties", Json.obj [("a", Json.obj [("$schemaRef", Json.str "t")])])])
      [("$schemaRef", Json.str "t")]
      rfl rfl rfl rfl rfl).2.1 "t" (Json.str "t") rfl rfl).1.mpr rfl

/-- Counterexample for C2 as stated: with a string annotation and a
referenced document that has no declared-schema key, the outcome is not
an INCORRECT_SCHEMA Error: the subscript raises KeyError past the
boundary. -/
theorem claim2_counterexample :
    validateRef jvAll
      [("s", Json.obj [("properties", Json.obj [("a", Json.obj [("$schemaRef", Json.str "t")])])])]
      [("e", Json.obj [("x", Json.num 1)])] "f"
      (Json.obj [("$schema", Json.str "s")]) "/a" (Json.obj [("$ref", Json.str "e")]) =
      .error (.keyError "$schema") := by
  rfl

/-- Claim C10: validate_file normalizes a bare schema identifier by
prepending a slash before the bundle lookup, while validate_ref looks up
the raw value: with the slash-prefixed form bundled and the bare form
absent, validate_file succeeds (when the delegated validation does) and
validate_ref fails with SCHEMA_NOT_FOUND on every discovered reference
whose target resolves. -/
theorem claim10_normalization_asymmetry (jv : JV) (schemas dataBundle : SB)
    (fn : String) (kvs : List (String × Json)) (s : String) (sch : Json)
    (ptr : String) (ref refName refData : Json)
    (h1 : lookupKV kvs "$schema" = some (.str s))
    (hh : pyStartsWith s "http" = false)
    (hsl : pyStartsWith s "/" = false)
    (hfound : lookupKV schemas ("/" ++ s) = some sch)
    (hbare : lookupKV schemas s = none)
    (hval : jv.validate schemas sch (.obj kvs) = .ok)
    (hmem : (ptr, ref) ∈ findRefs (.obj kvs) "" [])
    (h5 : pyGetItem ref "$ref" = .ok refName)
    (h6 : pyDictGet dataBundle refName = .ok refData) :
    validateFile jv schemas fn (.obj kvs) = .ok (.ok .FILE fn (.str ("/" ++ s))) ∧
    validateRef jv schemas dataBundle fn (.obj kvs) ptr ref =
      .ok (.error .REF fn "SCHEMA_NOT_FOUND" [("ref", refName)]) := by
  have hx : pyGetItem (Json.obj kvs) "$schema" = .ok (.str s) := by
    simp [pyGetItem, h1]
  constructor
  · simp [validateFile, hx, hh, hsl, hfound, hval]
  · have hd : pyDictGet schemas (Json.str s) = .error (.keyError s) := by
      simp [pyDictGet, hbare]
    simp [validateRef, h5, h6, hx, hd]

/-- Witness for C10: a document declaring a bare identifier whose
slash-prefixed form is bundled, containing one reference with a
resolvable target. -/
theorem claim10_normalization_asymmetry_witness :
    validateFile jvAll [("/q.yml", Json.null)] "d"
      (Json.obj [("$schema", Json.str "q.yml"), ("r", Json.obj [("$ref", Json.str "e")])]) =
      .ok (.ok .FILE "d" (.str "/q.yml")) ∧
    validateRef jvAll [("/q.yml", Json.null)] [("e", Json.null)] "d"
      (Json.obj [("$schema", Json.str "q.yml"), ("r", Json.obj [("$ref", Json.str "e")])])
      "/r" (Json.obj [("$ref", Json.str "e")]) =
      .ok (.error .REF "d" "SCHEMA_NOT_FOUND" [("ref", Json.str "e")]) :=
  claim10_normalization_asymmetry jvAll [("/q.yml", Json.null)] [("e", Json.null)] "d"
    [("$schema", Json.str "q.yml"), ("r", Json.obj [("$ref", Json.str "e")])] "q.yml"
    Json.null "/r" (Json.obj [("$ref", Json.str "e")]) (Json.str "e") Json.null
    rfl rfl rfl rfl rfl rfl (by simp [findRefs, findRefsObj, hasKeyKV, lookupKV]) rfl rfl

theorem allKeysIn_obj (rd : List (String × Json)) (ks : List String) :
    allKeysIn (.obj rd) ks = .ok (ks.all fun k => hasKeyKV rd k) := by
  induction ks with
  | nil => rfl
  | cons k ks ih =>
    by_cases h : hasKeyKV rd k = true
    · simp [allKeysIn, pyContainsE, h, ih]
    · simp only [Bool.not_eq_true] at h
      simp [allKeysIn, pyContainsE, h]

theorem validateResourcePaths_parsed (fs : String → Bool → LoadResult)
    (schemas dataBundle : SB) (fn : String) (data : Json) (ptr : String)
    (resKvs rd : List (String × Json)) (p : String)
    (hpath : lookupKV resKvs "path" = some (.str p))
    (hext : [".json", ".yml", ".yaml"].contains (splitextExt p) = true)
    (hload : ∀ b, fs ("resources" ++ p) b = .parsed (.obj rd)) :
    validateResourcePaths fs schemas dataBundle fn data ptr (.obj resKvs) =
      (match allKeysIn (.obj rd) ["apiVersion", "metadata", "kind"] with
       | .error e => .error e
       | .ok false => .ok (.error .RESOURCE_PATH fn "INVALID_OBJECT" [("res", .str p)])
       | .ok true =>
         match pyGetItem (Json.obj rd) "kind" with
         | .error e => .error e
         | .ok kv =>
           if pyStrEq "ConfigMap" kv || pyStrEq "Secret" kv then
             match pyContainsE (Json.obj rd) "data" with
             | .error e => .error e
             | .ok false => .ok (.error .RESOURCE_PATH fn "INVALID_OBJECT" [("res", .str p)])
             | .ok true =>
               match pyGetItem data "$schema" with
               | .error e => .error e
               | .ok ds => .ok (.refOk .RESOURCE_PATH fn (.str p) ds)
           else
             match pyGetItem data "$schema" with
             | .error e => .error e
             | .ok ds => .ok (.refOk .RESOURCE_PATH fn (.str p) ds)) := by
  have hx : pyGetItem (Json.obj resKvs) "path" = .ok (.str p) := by
    simp [pyGetItem, hpath]
  simp only [validateResourcePaths, hx]
  rw [hext]
  rw [hload]
  simp only [Bool.not_true, Bool.false_eq_true, if_false]

/-- Claim C7: for a resource reference with a valid extension whose file
parses to an object, validate_resource_paths returns an Error with
reason INVALID_OBJECT exactly when one of apiVersion, metadata, kind is
missing, or the kind is ConfigMap or Secret and the data key is
missing; a ConfigMap carrying the three keys and any data value never
yields INVALID_OBJECT. -/
theorem claim7_invalid_object (fs : String → Bool → LoadResult) (schemas dataBundle : SB)
    (fn : String) (data : Json) (ptr : String) (resKvs rd : List (String × Json))
    (p : String)
    (hpath : lookupKV resKvs "path" = some (.str p))
    (hext : [".json", ".yml", ".yaml"].contains (splitextExt p) = true)
    (hload : ∀ b, fs ("resources" ++ p) b = .parsed (.obj rd)) :
    validateResourcePaths fs schemas dataBundle fn data ptr (.obj resKvs) =
        .ok (.error .RESOURCE_PATH fn "INVALID_OBJECT" [("res", .str p)]) ↔
      (¬ (hasKeyKV rd "apiVersion" = true ∧ hasKeyKV rd "metadata" = true ∧
            hasKeyKV rd "kind" = true) ∨
        ((∃ kv, lookupKV rd "kind" = some kv ∧
            (pyStrEq "ConfigMap" kv || pyStrEq "Secret" kv) = true) ∧
          hasKeyKV rd "data" = false)) := by
  rw [validateResourcePaths_parsed fs schemas dataBundle fn data ptr resKvs rd p hpath hext hload,
    allKeysIn_obj]
  by_cases h1 : hasKeyKV rd "apiVersion" = true
  case neg =>
    simp only [Bool.not_eq_true] at h1
    simp [h1]
  case pos =>
  by_cases h2 : hasKeyKV rd "metadata" = true
  case neg =>
    simp only [Bool.not_eq_true] at h2
    simp [h1, h2]
  case pos =>
  by_cases h3 : hasKeyKV rd "kind" = true
  case neg =>
    simp only [Bool.not_eq_true] at h3
    simp [h1, h2, h3]
  case pos =>
  obtain ⟨kv, hkv⟩ : ∃ kv, lookupKV rd "kind" = some kv := by
    have h' := h3
    simp only [hasKeyKV, Option.isSome_iff_exists] at h'
    exact h'
  have hgk : pyGetItem (Json.obj rd) "kind" = .ok kv := by
    simp [pyGetItem, hkv]
  by_cases h4 : (pyStrEq "ConfigMap" kv || pyStrEq "Secret" kv) = true
  case pos =>
    by_cases h5 : hasKeyKV rd "data" = true
    case pos =>
      have hdc : pyContainsE (Json.obj rd) "data" = .ok true := by
        simp [pyContainsE, h5]
      simp only [h1, h2, h3, hgk, h4, hdc, List.all_cons, List.all_nil, Bool.and_true,
        if_true]
      cases hpg : pyGetItem data "$schema" <;> simp [hkv, h1, h2, h3, h4, h5]
    case neg =>
      simp only [Bool.not_eq_true] at h5
      have hdc : pyContainsE (Json.obj rd) "data" = .ok false := by
        simp [pyContainsE, h5]
      simp [h1, h2, h3, hgk, h4, hdc, hkv, h5]
      exact (Bool.or_eq_true _ _).mp h4
  case neg =>
    simp only [Bool.not_eq_true] at h4
    have h4' := h4
    simp only [Bool.or_eq_false_iff] at h4'
    simp only [h1, h2, h3, hgk, h4, List.all_cons, List.all_nil, Bool.and_true,
      Bool.false_eq_true, if_false]
    cases hpg : pyGetItem data "$schema" <;>
      simp [hkv, h1, h2, h3, h4'.1, h4'.2]

/-- A resource filesystem returning a ConfigMap without a data key. -/
def fsCMNoData : String → Bool → LoadResult := fun _ _ =>
  .parsed (.obj [("apiVersion", .str "v1"), ("metadata", .obj []), ("kind", .str "ConfigMap")])

/-- Witness for C7: a parsed ConfigMap with the three required keys but
no data key yields INVALID_OBJECT. -/
theorem claim7_invalid_object_witness :
    validateResourcePaths fsCMNoData [] [] "f" (Json.obj []) "/x"
      (Json.obj [("provider", Json.str "resource"), ("path", Json.str "/c.json")]) =
      .ok (.error .RESOURCE_PATH "f" "INVALID_OBJECT" [("res", .str "/c.json")]) :=
  (claim7_invalid_object fsCMNoData [] [] "f" (Json.obj []) "/x"
    [("provider", Json.str "resource"), ("path", Json.str "/c.json")]
    [("apiVersion", Json.str "v1"), ("metadata", Json.obj []), ("kind", Json.str "ConfigMap")]
    "/c.json" rfl rfl (fun _ => rfl)).mpr
    (Or.inr ⟨⟨Json.str "ConfigMap", rfl, rfl⟩, rfl⟩)

theorem splitChars_ne_nil (sep : Char) (l : List Char) : splitChars sep l ≠ [] := by
  cases l with
  | nil => simp [splitChars]
  | cons c rest =>
    by_cases h : c = sep
    · simp [splitChars, h]
    · simp only [splitChars, h, if_false]
      cases hr : splitChars sep rest <;> simp

theorem splitChars_append_sepFree (xs ys : List Char) (hx : ∀ c ∈ xs, c ≠ '/') :
    splitChars '/' (xs ++ ys) =
      (xs ++ (splitChars '/' ys).headD []) :: (splitChars '/' ys).tail := by
  induction xs with
  | nil =>
    simp only [List.nil_append]
    cases hr : splitChars '/' ys with
    | nil => exact absurd hr (splitChars_ne_nil '/' ys)
    | cons h t => simp
  | cons c rest ih =>
    have hc : c ≠ '/' := hx c (List.mem_cons_self c rest)
    have hrest : ∀ c ∈ rest, c ≠ '/' := fun d hd => hx d (List.mem_cons_of_mem c hd)
    simp only [List.cons_append, splitChars, hc, if_false, List.append_eq, ih hrest]

theorem renderPtr_data_split (segs : List String)
    (h : ∀ s ∈ segs, ∀ c ∈ s.data, c ≠ '/') :
    splitChars '/' (renderPtr segs).data = [] :: segs.map String.data := by
  induction segs with
  | nil => rfl
  | cons s rest ih =>
    have hs : ∀ c ∈ s.data, c ≠ '/' := h s (List.mem_cons_self s rest)
    have hrest : ∀ t ∈ rest, ∀ c ∈ t.data, c ≠ '/' :=
      fun t ht => h t (List.mem_cons_of_mem s ht)
    have hdata : (renderPtr (s :: rest)).data = '/' :: (s.data ++ (renderPtr rest).data) := by
      simp [renderPtr, String.data_append]
    rw [hdata]
    simp only [splitChars, if_pos rfl]
    rw [splitChars_append_sepFree s.data (renderPtr rest).data hs, ih hrest]
    simp

theorem string_mk_data (s : String) : String.mk s.data = s := rfl

/-- Claim C6: get_schema_info_from_pointer splits on slashes, drops the
leading empty chunk and descends into items for integer segments and
properties otherwise; the two concrete navigations from the claim
evaluate as stated. -/
theorem claim6_pointer_navigation :
    (∀ (schema : Json) (segs : List String), (∀ s ∈ segs, ∀ c ∈ s.data, c ≠ '/') →
      getSchemaInfoFromPointer schema (renderPtr segs) = navChunks schema segs) ∧
    getSchemaInfoFromPointer
      (Json.obj [("properties", Json.obj [("a",
        Json.obj [("properties", Json.obj [("b", Json.obj [("type", Json.str "string")])])])])])
      "/a/b" = .ok (Json.obj [("type", Json.str "string")]) ∧
    getSchemaInfoFromPointer
      (Json.obj [("properties", Json.obj [("a",
        Json.obj [("items", Json.obj [("type", Json.str "number")])])])])
      "/a/0" = .ok (Json.obj [("type", Json.str "number")]) := by
  refine ⟨?_, rfl, rfl⟩
  intro schema segs h
  unfold getSchemaInfoFromPointer pySplit
  rw [renderPtr_data_split segs h]
  simp only [List.map_cons, List.drop_succ_cons, List.drop_zero, List.map_map]
  have : (segs.map String.data).map String.mk = segs := by
    rw [List.map_map]
    have : (String.mk ∘ String.data) = id := funext string_mk_data
    rw [this, List.map_id]
  rw [← List.map_map, this]

/-- Witness for C6: the general split property applied at the segments a
then b over the first example schema. -/
theorem claim6_pointer_navigation_witness :
    getSchemaInfoFromPointer
      (Json.obj [("properties", Json.obj [("a",
        Json.obj [("properties", Json.obj [("b", Json.obj [("type", Json.str "string")])])])])])
      (renderPtr ["a", "b"]) =
      navChunks
        (Json.obj [("properties", Json.obj [("a",
          Json.obj [("properties", Json.obj [("b", Json.obj [("type", Json.str "string")])])])])])
        ["a", "b"] :=
  claim6_pointer_navigation.1
    (Json.obj [("properties", Json.obj [("a",
      Json.obj [("properties", Json.obj [("b", Json.obj [("type", Json.str "string")])])])])])
    ["a", "b"] (by decide)

/-- Claim C8: a successful run of main produces exactly the
concatenation of the schema outcomes, the data-file outcomes, the ref
outcomes and the resource-path outcomes, each group in bundle iteration
order, and the exit status is non-zero exactly when the filtered ERROR
subset is non-empty. -/
theorem claim8_orchestrator (jv : JV) (fetch : String → Option Json)
    (fs : String → Bool → LoadResult) (schemas dataBundle : SB)
    (results : List Outcome) (code : Nat)
    (h : runMain jv fetch fs schemas dataBundle = .ok (results, code)) :
    (∃ rs b rf rr rp,
      runSchemas jv fetch schemas schemas = .ok (rs, b) ∧
      mapOutcomes (validateFile jv b) dataBundle = .ok rf ∧
      mapDiscovered (fun fn d ptr r => validateRef jv b dataBundle fn d ptr r)
        (fun d => findRefs d "" []) dataBundle = .ok rr ∧
      mapDiscovered (fun fn d ptr r => validateResourcePaths fs b dataBundle fn d ptr r)
        (fun d => findResourcePaths d "" []) dataBundle = .ok rp ∧
      results = rs ++ rf ++ rr ++ rp) ∧
    (code ≠ 0 ↔ results.filter Outcome.isErr ≠ []) := by
  cases h1 : runSchemas jv fetch schemas schemas with
  | error e =>
    rw [show runMain jv fetch fs schemas dataBundle = .error e by
      simp only [runMain, h1]] at h
    simp at h
  | ok pr =>
  obtain ⟨rs, b⟩ := pr
  cases h2 : mapOutcomes (validateFile jv b) dataBundle with
  | error e =>
    rw [show runMain jv fetch fs schemas dataBundle = .error e by
      simp only [runMain, h1, h2]] at h
    simp at h
  | ok rf =>
  cases h3 : mapDiscovered (fun fn d ptr r => validateRef jv b dataBundle fn d ptr r)
      (fun d => findRefs d "" []) dataBundle with
  | error e =>
    rw [show runMain jv fetch fs schemas dataBundle = .error e by
      simp only [runMain, h1, h2, h3]] at h
    simp at h
  | ok rr =>
  cases h4 : mapDiscovered (fun fn d ptr r => validateResourcePaths fs b dataBundle fn d ptr r)
      (fun d => findResourcePaths d "" []) dataBundle with
  | error e =>
    rw [show runMain jv fetch fs schemas dataBundle = .error e by
      simp only [runMain, h1, h2, h3, h4]] at h
    simp at h
  | ok rp =>
  rw [show runMain jv fetch fs schemas dataBundle =
      .ok (rs ++ rf ++ rr ++ rp,
        if ((rs ++ rf ++ rr ++ rp).filter Outcome.isErr).length > 0 then 1 else 0) by
    simp only [runMain, h1, h2, h3, h4]] at h
  simp only [Except.ok.injEq, Prod.mk.injEq] at h
  obtain ⟨hres, hcode⟩ := h
  refine ⟨⟨rs, b, rf, rr, rp, rfl, h2, h3, h4, hres.symm⟩, ?_⟩
  rw [← hcode, ← hres]
  by_cases hl : ((rs ++ rf ++ rr ++ rp).filter Outcome.isErr).length > 0
  · rw [if_pos hl]
    exact ⟨fun _ => List.ne_nil_of_length_pos hl, fun _ => one_ne_zero⟩
  · rw [if_neg hl]
    have hfil : List.filter Outcome.isErr (rs ++ rf ++ rr ++ rp) = [] :=
      List.length_eq_zero.mp (Nat.eq_zero_of_not_pos hl)
    exact ⟨fun hc => absurd rfl hc, fun hne => absurd hfil hne⟩

/-- Witness for C8: a concrete bundle with one self-describing schema and
no data files runs to one OK outcome and exit code zero. -/
theorem claim8_orchestrator_witness :
    ((0 : Nat) ≠ 0 ↔
      ([Outcome.ok .SCHEMA "m" (Json.str "m")].filter Outcome.isErr ≠ [])) :=
  (claim8_orchestrator jvAll noFetch fsK8s [("m", Json.obj [("$schema", Json.str "m")])] []
    [Outcome.ok .SCHEMA "m" (Json.str "m")] 0 rfl).2

mutual

theorem findRefs_acc : ∀ (j : Json) (ptr : String) (acc : List (String × Json)),
    findRefs j ptr acc = acc ++ findRefs j ptr []
  | .null, _, _ => by simp [findRefs]
  | .bool _, _, _ => by simp [findRefs]
  | .num _, _, _ => by simp [findRefs]
  | .str _, _, _ => by simp [findRefs]
  | .arr xs, ptr, acc => by
      simp only [findRefs]
      rw [findRefsArr_acc xs 0 ptr acc]
  | .obj kvs, ptr, acc => by
      simp only [findRefs]
      by_cases h : hasKeyKV kvs "$ref"
      · simp [h]
      · simp only [h, Bool.false_eq_true, if_false]
        rw [findRefsObj_acc kvs ptr acc]

theorem findRefsObj_acc : ∀ (kvs : List (String × Json)) (ptr : String)
    (acc : List (String × Json)),
    findRefsObj kvs ptr acc = acc ++ findRefsObj kvs ptr []
  | [], _, _ => by simp [findRefsObj]
  | (k, v) :: rest, ptr, acc => by
      simp only [findRefsObj]
      rw [findRefsObj_acc rest ptr (findRefs v (ptr ++ "/" ++ k) acc),
          findRefs_acc v (ptr ++ "/" ++ k) acc,
          findRefsObj_acc rest ptr (findRefs v (ptr ++ "/" ++ k) []),
          List.append_assoc]

theorem findRefsArr_acc : ∀ (xs : List Json) (i : Nat) (ptr : String)
    (acc : List (String × Json)),
    findRefsArr xs i ptr acc = acc ++ findRefsArr xs i ptr []
  | [], _, _, _ => by simp [findRefsArr]
  | x :: rest, i, ptr, acc => by
      simp only [findRefsArr]
      rw [findRefsArr_acc rest (i + 1) ptr (findRefs x (ptr ++ "/" ++ toString i) acc),
          findRefs_acc x (ptr ++ "/" ++ toString i) acc,
          findRefsArr_acc rest (i + 1) ptr (findRefs x (ptr ++ "/" ++ toString i) []),
          List.append_assoc]

end

theorem strAppendEmpty (s : String) : s ++ "" = s := by simp

mutual

theorem findRefs_mem : ∀ (j : Json) (ptr p : String) (o : Json),
    (p, o) ∈ findRefs j ptr [] ↔ ∃ segs, p = ptr ++ renderPtr segs ∧ Site j segs o
  | .null, ptr, p, o => by
      simp only [findRefs]
      constructor
      · intro h
        exact absurd h (List.not_mem_nil _)
      · rintro ⟨segs, hp, hsite⟩
        cases hsite
  | .bool _, ptr, p, o => by
      simp only [findRefs]
      constructor
      · intro h
        exact absurd h (List.not_mem_nil _)
      · rintro ⟨segs, hp, hsite⟩
        cases hsite
  | .num _, ptr, p, o => by
      simp only [findRefs]
      constructor
      · intro h
        exact absurd h (List.not_mem_nil _)
      · rintro ⟨segs, hp, hsite⟩
        cases hsite
  | .str _, ptr, p, o => by
      simp only [findRefs]
      constructor
      · intro h
        exact absurd h (List.not_mem_nil _)
      · rintro ⟨segs, hp, hsite⟩
        cases hsite
  | .obj kvs, ptr, p, o => by
      simp only [findRefs]
      by_cases h : hasKeyKV kvs "$ref"
      · simp only [h, if_true, List.nil_append, List.mem_singleton, Prod.mk.injEq]
        constructor
        · rintro ⟨hp, ho⟩
          exact ⟨[], by simp [renderPtr, strAppendEmpty, hp], ho ▸ Site.here h⟩
        · rintro ⟨segs, hp, hsite⟩
          cases hsite with
          | here hk => exact ⟨by simp [renderPtr, strAppendEmpty] at hp; exact hp, rfl⟩
          | inObj hk hmem hsub => rw [h] at hk; cases hk
      · simp only [h, Bool.false_eq_true, if_false]
        rw [findRefsObj_mem kvs ptr p o]
        have hfalse : hasKeyKV kvs "$ref" = false := by
          cases hb : hasKeyKV kvs "$ref"
          · rfl
          · exact absurd hb h
        constructor
        · rintro ⟨k, v, segs, hmem, hp, hsub⟩
          refine ⟨k :: segs, ?_, Site.inObj hfalse hmem hsub⟩
          rw [hp]
          simp [renderPtr, String.append_assoc]
        · rintro ⟨segs, hp, hsite⟩
          cases hsite with
          | here hk => rw [hfalse] at hk; cases hk
          | inObj hk hmem hsub =>
            refine ⟨_, _, _, hmem, ?_, hsub⟩
            rw [hp]
            simp [renderPtr, String.append_assoc]
  | .arr xs, ptr, p, o => by
      simp only [findRefs]
      rw [findRefsArr_mem xs 0 ptr p o]
      constructor
      · rintro ⟨jdx, v, segs, hget, hp, hsub⟩
        rw [Nat.zero_add] at hp
        exact ⟨toString jdx :: segs, by rw [hp]; simp [renderPtr, String.append_assoc],
          Site.inArr hget hsub⟩
      · rintro ⟨segs, hp, hsite⟩
        cases hsite with
        | inArr hget hsub =>
          refine ⟨_, _, _, hget, ?_, hsub⟩
          rw [Nat.zero_add, hp]
          simp [renderPtr, String.append_assoc]

theorem findRefsObj_mem : ∀ (kvs : List (String × Json)) (ptr p : String) (o : Json),
    (p, o) ∈ findRefsObj kvs ptr [] ↔
      ∃ k v segs, (k, v) ∈ kvs ∧ p = ptr ++ "/" ++ k ++ renderPtr segs ∧ Site v segs o
  | [], ptr, p, o => by
      simp only [findRefsObj]
      constructor
      · intro h
        exact absurd h (List.not_mem_nil _)
      · rintro ⟨k, v, segs, hmem, _, _⟩
        exact absurd hmem (List.not_mem_nil _)
  | (k0, v0) :: rest, ptr, p, o => by
      simp only [findRefsObj]
      rw [findRefsObj_acc rest ptr (findRefs v0 (ptr ++ "/" ++ k0) [])]
      rw [List.mem_append]
      rw [findRefs_mem v0 (ptr ++ "/" ++ k0) p o]
      rw [findRefsObj_mem rest ptr p o]
      constructor
      · rintro (⟨segs, hp, hsub⟩ | ⟨k, v, segs, hmem, hp, hsub⟩)
        · exact ⟨k0, v0, segs, List.mem_cons_self _ _, hp, hsub⟩
        · exact ⟨k, v, segs, List.mem_cons_of_mem _ hmem, hp, hsub⟩
      · rintro ⟨k, v, segs, hmem, hp, hsub⟩
        rcases List.mem_cons.mp hmem with heq | hmem'
        · obtain ⟨hk, hv⟩ := Prod.mk.injEq .. ▸ heq
          left
          exact ⟨segs, by rw [hp, hk], by rw [← hv]; exact hsub⟩
        · right
          exact ⟨k, v, segs, hmem', hp, hsub⟩

theorem findRefsArr_mem : ∀ (xs : List Json) (i : Nat) (ptr p : String) (o : Json),
    (p, o) ∈ findRefsArr xs i ptr [] ↔
      ∃ jdx v segs, xs[jdx]? = some v ∧
        p = ptr ++ "/" ++ toString (i + jdx) ++ renderPtr segs ∧ Site v segs o
  | [], i, ptr, p, o => by
      simp only [findRefsArr]
      constructor
      · intro h
        exact absurd h (List.not_mem_nil _)
      · rintro ⟨jdx, v, segs, hget, _, _⟩
        rw [List.getElem?_nil] at hget
        cases hget
  | x :: rest, i, ptr, p, o => by
      simp only [findRefsArr]
      rw [findRefsArr_acc rest (i + 1) ptr (findRefs x (ptr ++ "/" ++ toString i) [])]
      rw [List.mem_append]
      rw [findRefs_mem x (ptr ++ "/" ++ toString i) p o]
      rw [findRefsArr_mem rest (i + 1) ptr p o]
      constructor
      · rintro (⟨segs, hp, hsub⟩ | ⟨jdx, v, segs, hget, hp, hsub⟩)
        · refine ⟨0, x, segs, List.getElem?_cons_zero, ?_, hsub⟩
          rw [Nat.add_zero]
          exact hp
        · refine ⟨jdx + 1, v, segs, ?_, ?_, hsub⟩
          · rw [List.getElem?_cons_succ]
            exact hget
          · rw [show i + (jdx + 1) = i + 1 + jdx by omega]
            exact hp
      · rintro ⟨jdx, v, segs, hget, hp, hsub⟩
        cases jdx with
        | zero =>
          rw [List.getElem?_cons_zero] at hget
          injection hget with hv
          left
          rw [Nat.add_zero] at hp
          exact ⟨segs, hp, hv ▸ hsub⟩
        | succ jdx' =>
          rw [List.getElem?_cons_succ] at hget
          right
          refine ⟨jdx', v, segs, hget, ?_, hsub⟩
          rw [show i + 1 + jdx' = i + (jdx' + 1) by omega]
          exact hp

end

/-- Claim C5: find_refs is complete and precise.  Each top-level call
starts with a fresh accumulator (the threaded list only grows by
appending), a pair is returned exactly when its pointer renders the
segment path of a ref-bearing sub-object none of whose ancestors bears
the marker (so matched objects are recorded at their true location and
never descended into), and on a document with two ref sites the two
pairs come out in traversal order. -/
theorem claim5_find_refs_complete (j : Json) :
    (∀ ptr acc, findRefs j ptr acc = acc ++ findRefs j ptr []) ∧
    (∀ p o, (p, o) ∈ findRefs j "" [] ↔ ∃ segs, p = renderPtr segs ∧ Site j segs o) ∧
    findRefs (Json.obj [("x", Json.obj [("$ref", Json.str "a")]),
        ("y", Json.arr [Json.obj [("$ref", Json.str "b")], Json.num 3])]) "" [] =
      [("/x", Json.obj [("$ref", Json.str "a")]),
       ("/y/0", Json.obj [("$ref", Json.str "b")])] := by
  refine ⟨findRefs_acc j, ?_, ?_⟩
  · intro p o
    rw [findRefs_mem j "" p o]
    constructor
    · rintro ⟨segs, hp, hsite⟩
      refine ⟨segs, ?_, hsite⟩
      rw [hp]
      rfl
    · rintro ⟨segs, hp, hsite⟩
      refine ⟨segs, ?_, hsite⟩
      rw [hp]
      rfl
  · simp [findRefs, findRefsObj, findRefsArr, hasKeyKV, lookupKV]
    rfl
